import Mathlib

/-!
# Verification of the transfer planner in `web_service.py`

Shallow embedding of `create_transfers_object` and `make_transfers` from
`src/web_service.py` of the `fantasy_pl` repository, together with proofs of
the specification's claims about them.

Conventions of the embedding:
* Python dict entries become Lean structures with the same field names.
* The module-level globals `constants.SQUAD_ID` and `constants.NEXT_EVENT`
  (written by `login` and read inside `create_transfers_object`) become an
  explicit `Constants` record passed as a parameter.
* Python's `sorted(..., key=...)` (a stable ascending sort by key) is embedded
  as a stable insertion sort; a stable sort by key is extensionally unique, so
  the embedding is faithful to CPython's Timsort.
* The pairing loop `for i in range(len(players_in)): ... players_out[i] ...`
  can raise `IndexError` when `players_out` is shorter than `players_in`;
  the embedding returns `Option`, with `none` standing for that exception.
* Network calls in `make_transfers` are abstracted by a `post` oracle and a
  count of the HTTP requests issued.
-/

/-- An entry of `old_squad` (transfers page payload):
`{ element: <id>, selling_price: <int> }`. -/
structure OldPlayer where
  element : Int
  selling_price : Int
deriving DecidableEq, Repr

/-- An entry of `new_squad`: `{ id: <id>, element_type: <int>, now_cost: <int> }`. -/
structure NewPlayer where
  id : Int
  element_type : Int
  now_cost : Int
deriving DecidableEq, Repr

/-- One element of the `transfers` list built by `create_transfers_object`. -/
structure Transfer where
  element_in : Int
  purchase_price : Int
  element_out : Int
  selling_price : Int
deriving DecidableEq, Repr

/-- The module-level state of `constants` read by `create_transfers_object`
(`constants.SQUAD_ID` and `constants.NEXT_EVENT`, both set by `login`). -/
structure Constants where
  SQUAD_ID : Int
  NEXT_EVENT : Int
deriving DecidableEq, Repr

/-- The dict returned by `create_transfers_object`. -/
structure TransferObject where
  confirmed : String
  entry : Int
  event : Int
  transfers : List Transfer
  wildcard : String
deriving DecidableEq, Repr

/-- `new_squad_ids = [player['id'] for player in new_squad]` (line 111). -/
def new_squad_ids (new_squad : List NewPlayer) : List Int :=
  new_squad.map (fun player => player.id)

/-- `old_squad_ids = [player['element'] for player in old_squad]` (line 112). -/
def old_squad_ids (old_squad : List OldPlayer) : List Int :=
  old_squad.map (fun player => player.element)

/-- `players_in = [player for player in new_squad if player['id'] not in old_squad_ids]`
(lines 113–114). -/
def players_in (old_squad : List OldPlayer) (new_squad : List NewPlayer) :
    List NewPlayer :=
  new_squad.filter (fun player => decide (player.id ∉ old_squad_ids old_squad))

/-- `players_out = [player for player in old_squad if player['element'] not in new_squad_ids]`
(lines 115–116). -/
def players_out (old_squad : List OldPlayer) (new_squad : List NewPlayer) :
    List OldPlayer :=
  old_squad.filter (fun player => decide (player.element ∉ new_squad_ids new_squad))

/-- Insert one player into an already-processed list, moving past strictly
smaller keys only: this makes the resulting sort stable, as Python's
`sorted` is. -/
def insortByType (x : NewPlayer) : List NewPlayer → List NewPlayer
  | [] => [x]
  | y :: ys =>
    if y.element_type < x.element_type then y :: insortByType x ys
    else x :: y :: ys

/-- `players_in = sorted(players_in, key=lambda player: (player['element_type']))`
(lines 127–128): stable ascending sort by `element_type`. -/
def sortPlayersIn : List NewPlayer → List NewPlayer
  | [] => []
  | x :: xs => insortByType x (sortPlayersIn xs)

/-- The loop of lines 131–137: for each index `i` of `players_in`, append a
transfer built from `players_in[i]` and `players_out[i]`. Indexing
`players_out[i]` raises `IndexError` when `players_in` is longer, embedded
here as `none`. -/
def buildTransfers : List NewPlayer → List OldPlayer → Option (List Transfer)
  | [], _ => some []
  | _ :: _, [] => none
  | p :: pins, q :: pouts =>
    (buildTransfers pins pouts).map
      (fun ts =>
        { element_in := p.id, purchase_price := p.now_cost,
          element_out := q.element, selling_price := q.selling_price } :: ts)

/-- `create_transfers_object(old_squad, new_squad)` (lines 103–139).
`none` models the `IndexError` escaping the loop. -/
def create_transfers_object (c : Constants) (old_squad : List OldPlayer)
    (new_squad : List NewPlayer) : Option TransferObject :=
  (buildTransfers (sortPlayersIn (players_in old_squad new_squad))
      (players_out old_squad new_squad)).map
    (fun ts =>
      { confirmed := "true", entry := c.SQUAD_ID, event := c.NEXT_EVENT,
        transfers := ts, wildcard := "false" })

/-- The heap state a statement of the Python body could mutate: the two list
arguments. Threaded explicitly to state the frame property. -/
structure SquadState where
  old_squad : List OldPlayer
  new_squad : List NewPlayer
deriving DecidableEq

/-- State-passing reading of the body of `create_transfers_object`: each local
is bound in source order; every step only reads `st.old_squad` / `st.new_squad`
(`sorted` returns a fresh list and the appends target the local
`transfer_object`), so the state is returned as the body left it. -/
def create_transfers_object_state (c : Constants) (st : SquadState) :
    SquadState × Option TransferObject :=
  let pin := players_in st.old_squad st.new_squad
  let pout := players_out st.old_squad st.new_squad
  let pinSorted := sortPlayersIn pin
  match buildTransfers pinSorted pout with
  | none => (st, none)
  | some ts =>
    (st, some { confirmed := "true", entry := c.SQUAD_ID, event := c.NEXT_EVENT,
                transfers := ts, wildcard := "false" })

/-- The only observable of a `requests.Response` the code manipulates. -/
structure Response where
  status_code : Int
deriving DecidableEq, Repr

/-- HTTP traffic issued by one call to `make_transfers`. -/
structure NetworkLog where
  get_requests : Nat
  post_requests : Nat
deriving DecidableEq, Repr

/-- `make_transfers(transfer_object)` (lines 142–176). A non-empty plan issues
one cookie-fetching GET and one POST of the plan and returns the POST's
response unmodified (no retry); an empty plan touches the network not at all
and returns a synthetic status-200 response. -/
def make_transfers (post : TransferObject → Response)
    (transfer_object : TransferObject) : Response × NetworkLog :=
  if transfer_object.transfers.length > 0 then
    (post transfer_object, { get_requests := 1, post_requests := 1 })
  else
    ({ status_code := 200 }, { get_requests := 0, post_requests := 0 })

-- Sanity check on the spec's worked example.
example :
    (create_transfers_object ⟨7, 8⟩
        [⟨1, 50⟩, ⟨2, 60⟩] [⟨1, 2, 55⟩, ⟨3, 2, 65⟩]).map
      (fun t => t.transfers) = some [⟨3, 65, 2, 60⟩] := by decide

/-! ## Helper lemmas about the embedded body -/

/-- The transfer built by one iteration of the loop (lines 132–137). -/
def mkTransfer (p : NewPlayer) (q : OldPlayer) : Transfer :=
  { element_in := p.id, purchase_price := p.now_cost,
    element_out := q.element, selling_price := q.selling_price }

theorem buildTransfers_eq_none {pin : List NewPlayer} {pout : List OldPlayer}
    (h : pout.length < pin.length) : buildTransfers pin pout = none := by
  induction pin generalizing pout with
  | nil => simp at h
  | cons p pins ih =>
    cases pout with
    | nil => rfl
    | cons q pouts =>
      simp only [List.length_cons, Nat.add_lt_add_iff_right] at h
      simp [buildTransfers, ih h]

theorem buildTransfers_eq_some {pin : List NewPlayer} {pout : List OldPlayer}
    (h : pin.length ≤ pout.length) :
    buildTransfers pin pout = some (List.zipWith mkTransfer pin pout) := by
  induction pin generalizing pout with
  | nil => rfl
  | cons p pins ih =>
    cases pout with
    | nil => simp at h
    | cons q pouts =>
      simp only [List.length_cons, Nat.add_le_add_iff_right] at h
      simp [buildTransfers, ih h, mkTransfer]

theorem buildTransfers_isSome_iff (pin : List NewPlayer) (pout : List OldPlayer) :
    (buildTransfers pin pout).isSome ↔ pin.length ≤ pout.length := by
  constructor
  · intro h
    by_contra hlt
    rw [buildTransfers_eq_none (Nat.lt_of_not_le hlt)] at h
    simp at h
  · intro h
    rw [buildTransfers_eq_some h]
    rfl

theorem zipWith_mkTransfer_map_element_in (pin : List NewPlayer)
    (pout : List OldPlayer) :
    (List.zipWith mkTransfer pin pout).map (fun tr => tr.element_in) =
      (pin.take pout.length).map (fun p => p.id) := by
  induction pin generalizing pout with
  | nil => simp
  | cons p pins ih =>
    cases pout with
    | nil => simp
    | cons q pouts => simp [mkTransfer, ih]

theorem zipWith_mkTransfer_map_element_out (pin : List NewPlayer)
    (pout : List OldPlayer) :
    (List.zipWith mkTransfer pin pout).map (fun tr => tr.element_out) =
      (pout.take pin.length).map (fun q => q.element) := by
  induction pin generalizing pout with
  | nil => simp
  | cons p pins ih =>
    cases pout with
    | nil => simp
    | cons q pouts => simp [mkTransfer, ih]

/-! ## Helper lemmas about the stable sort -/

theorem insortByType_perm (x : NewPlayer) (l : List NewPlayer) :
    List.Perm (insortByType x l) (x :: l) := by
  induction l with
  | nil => exact List.Perm.refl _
  | cons y ys ih =>
    rw [insortByType]
    by_cases hc : y.element_type < x.element_type
    · rw [if_pos hc]
      exact (ih.cons y).trans (List.Perm.swap x y ys)
    · rw [if_neg hc]

theorem sortPlayersIn_perm (l : List NewPlayer) :
    List.Perm (sortPlayersIn l) l := by
  induction l with
  | nil => exact List.Perm.refl _
  | cons x xs ih => exact (insortByType_perm x _).trans (ih.cons x)

theorem sortPlayersIn_length (l : List NewPlayer) :
    (sortPlayersIn l).length = l.length :=
  (sortPlayersIn_perm l).length_eq

theorem insortByType_pairwise {x : NewPlayer} {l : List NewPlayer}
    (h : l.Pairwise (fun a b => a.element_type ≤ b.element_type)) :
    (insortByType x l).Pairwise (fun a b => a.element_type ≤ b.element_type) := by
  induction l with
  | nil => simp [insortByType]
  | cons y ys ih =>
    rw [insortByType]
    rcases List.pairwise_cons.1 h with ⟨hy, hys⟩
    by_cases hc : y.element_type < x.element_type
    · rw [if_pos hc]
      refine List.pairwise_cons.2 ⟨?_, ih hys⟩
      intro z hz
      rcases List.mem_cons.1 ((insortByType_perm x ys).mem_iff.1 hz) with rfl | hz'
      · exact le_of_lt hc
      · exact hy z hz'
    · rw [if_neg hc]
      refine List.pairwise_cons.2 ⟨?_, h⟩
      intro z hz
      rcases List.mem_cons.1 hz with rfl | hz'
      · exact not_lt.1 hc
      · exact le_trans (not_lt.1 hc) (hy z hz')

theorem sortPlayersIn_pairwise (l : List NewPlayer) :
    (sortPlayersIn l).Pairwise (fun a b => a.element_type ≤ b.element_type) := by
  induction l with
  | nil => simp [sortPlayersIn]
  | cons x xs ih => exact insortByType_pairwise ih

/-- Selector for one position category, used to state sorting stability. -/
def typeIs (k : Int) (p : NewPlayer) : Bool :=
  decide (p.element_type = k)

theorem filter_insortByType (x : NewPlayer) (l : List NewPlayer) (k : Int) :
    (insortByType x l).filter (typeIs k) =
      if x.element_type = k then x :: l.filter (typeIs k)
      else l.filter (typeIs k) := by
  induction l with
  | nil =>
    by_cases hk : x.element_type = k <;> simp [insortByType, typeIs, hk]
  | cons y ys ih =>
    rw [insortByType]
    by_cases hc : y.element_type < x.element_type
    · rw [if_pos hc]
      by_cases hk : x.element_type = k
      · have hyk : ¬ y.element_type = k := by
          intro hy
          exact absurd (hy ▸ hc) (by simp [hk, hk ▸ hy])
        rw [if_pos hk]
        simp [List.filter_cons, typeIs, hyk, ih, hk]
      · rw [if_neg hk]
        by_cases hyk : y.element_type = k <;>
          simp [List.filter_cons, typeIs, hyk, ih, hk]
    · rw [if_neg hc]
      by_cases hk : x.element_type = k <;>
        simp [List.filter_cons, typeIs, hk]

theorem sortPlayersIn_filter (l : List NewPlayer) (k : Int) :
    (sortPlayersIn l).filter (typeIs k) = l.filter (typeIs k) := by
  induction l with
  | nil => rfl
  | cons x xs ih =>
    rw [sortPlayersIn, filter_insortByType]
    by_cases hk : x.element_type = k <;>
      simp [List.filter_cons, typeIs, hk, ih]

/-! ## Claim theorems -/

/-- C4: `players_in` is exactly the subsequence of `new_squad` whose `id` does
not occur among the `element` ids of `old_squad`, and `players_out` is exactly
the subsequence of `old_squad` whose `element` does not occur among the `id`
values of `new_squad` (set difference by identifier). -/
theorem players_in_out_set_difference (old_squad : List OldPlayer)
    (new_squad : List NewPlayer) :
    (players_in old_squad new_squad).Sublist new_squad ∧
    (∀ p : NewPlayer, p ∈ players_in old_squad new_squad ↔
      p ∈ new_squad ∧ p.id ∉ old_squad_ids old_squad) ∧
    (players_out old_squad new_squad).Sublist old_squad ∧
    (∀ q : OldPlayer, q ∈ players_out old_squad new_squad ↔
      q ∈ old_squad ∧ q.element ∉ new_squad_ids new_squad) := by
  refine ⟨List.filter_sublist _, ?_, List.filter_sublist _, ?_⟩
  · intro p
    simp [players_in]
  · intro q
    simp [players_out]

/-- C2 counterexample: with `old_squad = [{element:1, selling_price:50}]` and
`new_squad = [{id:2,...},{id:3,...}]` the in/out counts are mismatched (2 in,
1 out), yet the pairing loop indexes `players_out[1]` out of range
(`IndexError`, modeled as `none`) rather than returning a defined plan of
length `min = 1`. -/
theorem create_transfers_object_index_error :
    (players_in [⟨1, 50⟩] [⟨2, 1, 10⟩, ⟨3, 1, 20⟩]).length = 2 ∧
    (players_out [⟨1, 50⟩] [⟨2, 1, 10⟩, ⟨3, 1, 20⟩]).length = 1 ∧
    create_transfers_object ⟨7, 8⟩ [⟨1, 50⟩] [⟨2, 1, 10⟩, ⟨3, 1, 20⟩] = none := by
  decide

/-- C2 amended: when `|players_in| ≤ |players_out|` the call succeeds and the
plan has `min(|players_in|, |players_out|) = |players_in|` transfers (the tail
of `players_out` is silently dropped); when `|players_in| > |players_out|` the
pairing loop indexes out of range and the call fails with `IndexError`
(modeled as `none`). -/
theorem create_transfers_object_truncation (c : Constants)
    (old_squad : List OldPlayer) (new_squad : List NewPlayer) :
    ((players_in old_squad new_squad).length ≤
        (players_out old_squad new_squad).length →
      ∃ t, create_transfers_object c old_squad new_squad = some t ∧
        t.transfers.length =
          min (players_in old_squad new_squad).length
            (players_out old_squad new_squad).length) ∧
    ((players_out old_squad new_squad).length <
        (players_in old_squad new_squad).length →
      create_transfers_object c old_squad new_squad = none) := by
  constructor
  · intro h
    have hs : (sortPlayersIn (players_in old_squad new_squad)).length ≤
        (players_out old_squad new_squad).length := by
      rw [sortPlayersIn_length]
      exact h
    refine ⟨{ confirmed := "true", entry := c.SQUAD_ID, event := c.NEXT_EVENT,
              transfers := List.zipWith mkTransfer
                (sortPlayersIn (players_in old_squad new_squad))
                (players_out old_squad new_squad),
              wildcard := "false" }, ?_, ?_⟩
    · simp [create_transfers_object, buildTransfers_eq_some hs]
    · simp [List.length_zipWith, sortPlayersIn_length]
  · intro h
    have hs : (players_out old_squad new_squad).length <
        (sortPlayersIn (players_in old_squad new_squad)).length := by
      rw [sortPlayersIn_length]
      exact h
    simp [create_transfers_object, buildTransfers_eq_none hs]

/-- C2 witness: both branches of the amended statement at concrete inputs. -/
theorem create_transfers_object_truncation_witness :
    (∃ t, create_transfers_object ⟨7, 8⟩ [⟨1, 50⟩, ⟨2, 60⟩] [⟨3, 1, 10⟩] = some t ∧
      t.transfers.length =
        min (players_in [⟨1, 50⟩, ⟨2, 60⟩] [⟨3, 1, 10⟩]).length
          (players_out [⟨1, 50⟩, ⟨2, 60⟩] [⟨3, 1, 10⟩]).length) ∧
    create_transfers_object ⟨7, 8⟩ [⟨1, 50⟩] [⟨2, 1, 10⟩, ⟨3, 1, 20⟩] = none :=
  ⟨(create_transfers_object_truncation ⟨7, 8⟩ [⟨1, 50⟩, ⟨2, 60⟩] [⟨3, 1, 10⟩]).1
      (by decide),
   (create_transfers_object_truncation ⟨7, 8⟩ [⟨1, 50⟩] [⟨2, 1, 10⟩, ⟨3, 1, 20⟩]).2
      (by decide)⟩

/-- C3: evaluation at the failing input: `old_squad = [{element:1,
selling_price:50}]`, `new_squad = []` gives mismatched in/out counts (0 in,
1 out), yet the call succeeds and returns a plan with zero transfers; the
code defines no `InvalidPlanError` at all. -/
theorem create_transfers_object_mismatch_unguarded :
    (players_in [⟨1, 50⟩] ([] : List NewPlayer)).length = 0 ∧
    (players_out [⟨1, 50⟩] ([] : List NewPlayer)).length = 1 ∧
    create_transfers_object ⟨7, 8⟩ [⟨1, 50⟩] [] =
      some { confirmed := "true", entry := 7, event := 8,
             transfers := [], wildcard := "false" } := by
  decide

/-- C7: an empty transfer list makes `make_transfers` a no-op: no network
request at all and a synthetic status-200 response; a non-empty list posts
the plan exactly once (one cookie GET, one POST) and returns the POST
response without retrying. -/
theorem make_transfers_empty_noop (post : TransferObject → Response)
    (transfer_object : TransferObject) :
    (transfer_object.transfers = [] →
      make_transfers post transfer_object =
        ({ status_code := 200 }, { get_requests := 0, post_requests := 0 })) ∧
    (transfer_object.transfers ≠ [] →
      make_transfers post transfer_object =
        (post transfer_object, { get_requests := 1, post_requests := 1 })) := by
  constructor
  · intro h
    simp [make_transfers, h]
  · intro h
    have hl : 0 < transfer_object.transfers.length := List.length_pos.2 h
    simp [make_transfers, hl]

/-- C7 witness: both branches at concrete inputs, with a post oracle whose
response (status 500) is visibly returned unmodified. -/
theorem make_transfers_empty_noop_witness :
    make_transfers (fun _ => ⟨500⟩) ⟨"true", 7, 8, [], "false"⟩ =
      ({ status_code := 200 }, { get_requests := 0, post_requests := 0 }) ∧
    make_transfers (fun _ => ⟨500⟩) ⟨"true", 7, 8, [⟨3, 65, 2, 60⟩], "false"⟩ =
      (⟨500⟩, { get_requests := 1, post_requests := 1 }) :=
  ⟨(make_transfers_empty_noop (fun _ => ⟨500⟩) ⟨"true", 7, 8, [], "false"⟩).1 rfl,
   (make_transfers_empty_noop (fun _ => ⟨500⟩)
      ⟨"true", 7, 8, [⟨3, 65, 2, 60⟩], "false"⟩).2 (by decide)⟩

/-- C8 counterexample: `create_transfers_object` is not a function of its two
squad arguments alone: with identical (empty) squads but different ambient
`constants` module state (as written by `login`), the returned objects
differ in their `entry` field. -/
theorem create_transfers_object_ambient_dependence :
    create_transfers_object ⟨1, 1⟩ [] [] ≠ create_transfers_object ⟨2, 1⟩ [] [] := by
  decide

/-- C8 amended: `create_transfers_object` is a deterministic function of its
squads together with the ambient `constants.SQUAD_ID` / `constants.NEXT_EVENT`
state; the `transfers` part and success/failure depend on the squads alone,
while `entry` and `event` come from the ambient state. -/
theorem create_transfers_object_deterministic (c c' : Constants)
    (old_squad : List OldPlayer) (new_squad : List NewPlayer) :
    create_transfers_object c old_squad new_squad =
      create_transfers_object c old_squad new_squad ∧
    (create_transfers_object c old_squad new_squad).map (fun t => t.transfers) =
      (create_transfers_object c' old_squad new_squad).map (fun t => t.transfers) ∧
    ((create_transfers_object c old_squad new_squad).isSome ↔
      (create_transfers_object c' old_squad new_squad).isSome) := by
  refine ⟨rfl, ?_, ?_⟩ <;>
    cases h : buildTransfers (sortPlayersIn (players_in old_squad new_squad))
        (players_out old_squad new_squad) <;>
      simp [create_transfers_object, h]

/-- C10: frame property: the state-passing reading of the body hands back both
squad lists exactly as received (no entry mutated, order intact), while
computing the same result as the pure function. -/
theorem create_transfers_object_state_frame (c : Constants) (st : SquadState) :
    (create_transfers_object_state c st).1 = st ∧
    (create_transfers_object_state c st).2 =
      create_transfers_object c st.old_squad st.new_squad := by
  cases h : buildTransfers (sortPlayersIn (players_in st.old_squad st.new_squad))
      (players_out st.old_squad st.new_squad) <;>
    simp [create_transfers_object_state, create_transfers_object, h]

/-- C1: with pairwise-distinct ids within each squad and equally many incoming
and outgoing players (k each), the plan exists with exactly k transfers; its
element_in values are pairwise distinct, absent from the old squad's ids, and
form exactly the id multiset of players_in; its element_out values are
pairwise distinct and present among the old squad's ids; and equal id sets
give zero transfers. -/
theorem create_transfers_object_correct (c : Constants)
    (old_squad : List OldPlayer) (new_squad : List NewPlayer)
    (hold : (old_squad_ids old_squad).Nodup)
    (hnew : (new_squad_ids new_squad).Nodup)
    (hk : (players_in old_squad new_squad).length =
      (players_out old_squad new_squad).length) :
    ∃ t, create_transfers_object c old_squad new_squad = some t ∧
      t.transfers.length = (players_in old_squad new_squad).length ∧
      (t.transfers.map (fun tr => tr.element_in)).Nodup ∧
      (∀ x ∈ t.transfers.map (fun tr => tr.element_in),
        x ∉ old_squad_ids old_squad) ∧
      List.Perm (t.transfers.map (fun tr => tr.element_in))
        ((players_in old_squad new_squad).map (fun p => p.id)) ∧
      (t.transfers.map (fun tr => tr.element_out)).Nodup ∧
      (∀ x ∈ t.transfers.map (fun tr => tr.element_out),
        x ∈ old_squad_ids old_squad) ∧
      ((∀ x : Int, x ∈ old_squad_ids old_squad ↔ x ∈ new_squad_ids new_squad) →
        t.transfers = []) := by
  have hsl : (sortPlayersIn (players_in old_squad new_squad)).length =
      (players_in old_squad new_squad).length := sortPlayersIn_length _
  have hle : (sortPlayersIn (players_in old_squad new_squad)).length ≤
      (players_out old_squad new_squad).length := by
    rw [hsl]
    exact le_of_eq hk
  have hle' : (players_out old_squad new_squad).length ≤
      (sortPlayersIn (players_in old_squad new_squad)).length := by
    rw [hsl]
    exact le_of_eq hk.symm
  have hin_eq : (List.zipWith mkTransfer
      (sortPlayersIn (players_in old_squad new_squad))
      (players_out old_squad new_squad)).map (fun tr => tr.element_in) =
      (sortPlayersIn (players_in old_squad new_squad)).map (fun p => p.id) := by
    rw [zipWith_mkTransfer_map_element_in, List.take_of_length_le hle]
  have hout_eq : (List.zipWith mkTransfer
      (sortPlayersIn (players_in old_squad new_squad))
      (players_out old_squad new_squad)).map (fun tr => tr.element_out) =
      (players_out old_squad new_squad).map (fun q => q.element) := by
    rw [zipWith_mkTransfer_map_element_out, List.take_of_length_le hle']
  have hperm : List.Perm
      ((sortPlayersIn (players_in old_squad new_squad)).map (fun p => p.id))
      ((players_in old_squad new_squad).map (fun p => p.id)) :=
    (sortPlayersIn_perm _).map _
  have hnew' : (new_squad.map (fun p => p.id)).Nodup := hnew
  have hpin_nodup : ((players_in old_squad new_squad).map (fun p => p.id)).Nodup :=
    ((List.filter_sublist new_squad).map (fun p => p.id)).nodup hnew'
  have hold' : (old_squad.map (fun q => q.element)).Nodup := hold
  have hpout_nodup :
      ((players_out old_squad new_squad).map (fun q => q.element)).Nodup :=
    ((List.filter_sublist old_squad).map (fun q => q.element)).nodup hold'
  refine ⟨{ confirmed := "true", entry := c.SQUAD_ID, event := c.NEXT_EVENT,
            transfers := List.zipWith mkTransfer
              (sortPlayersIn (players_in old_squad new_squad))
              (players_out old_squad new_squad),
            wildcard := "false" },
    by simp [create_transfers_object, buildTransfers_eq_some hle],
    ?_, ?_, ?_, ?_, ?_, ?_, ?_⟩
  · simp [List.length_zipWith, hsl]
    omega
  · rw [hin_eq]
    exact hperm.nodup_iff.2 hpin_nodup
  · intro x hx
    rw [hin_eq] at hx
    rcases List.mem_map.1 hx with ⟨p, hp, rfl⟩
    have hp' : p ∈ players_in old_squad new_squad :=
      (sortPlayersIn_perm _).mem_iff.1 hp
    have hcond := (List.mem_filter.1 hp').2
    exact of_decide_eq_true hcond
  · rw [hin_eq]
    exact hperm
  · rw [hout_eq]
    exact hpout_nodup
  · intro x hx
    rw [hout_eq] at hx
    rcases List.mem_map.1 hx with ⟨q, hq, rfl⟩
    have hq' : q ∈ old_squad := (List.mem_filter.1 hq).1
    exact List.mem_map.2 ⟨q, hq', rfl⟩
  · intro hiff
    have hpin_nil : players_in old_squad new_squad = [] := by
      simp only [players_in, List.filter_eq_nil_iff]
      intro p hp
      have hmem : p.id ∈ new_squad_ids new_squad := List.mem_map.2 ⟨p, hp, rfl⟩
      simp [(hiff p.id).2 hmem]
    simp [hpin_nil, sortPlayersIn]

/-- C1 witness: the theorem applied to the spec's worked squads, whose id
lists are distinct and whose in/out counts agree (k = 1). -/
theorem create_transfers_object_correct_witness :
    ∃ t, create_transfers_object ⟨7, 8⟩ [⟨1, 50⟩, ⟨2, 60⟩]
        [⟨1, 2, 55⟩, ⟨3, 2, 65⟩] = some t ∧
      t.transfers.length =
        (players_in [⟨1, 50⟩, ⟨2, 60⟩] [⟨1, 2, 55⟩, ⟨3, 2, 65⟩]).length ∧
      (t.transfers.map (fun tr => tr.element_in)).Nodup ∧
      (∀ x ∈ t.transfers.map (fun tr => tr.element_in),
        x ∉ old_squad_ids [⟨1, 50⟩, ⟨2, 60⟩]) ∧
      List.Perm (t.transfers.map (fun tr => tr.element_in))
        ((players_in [⟨1, 50⟩, ⟨2, 60⟩] [⟨1, 2, 55⟩, ⟨3, 2, 65⟩]).map
          (fun p => p.id)) ∧
      (t.transfers.map (fun tr => tr.element_out)).Nodup ∧
      (∀ x ∈ t.transfers.map (fun tr => tr.element_out),
        x ∈ old_squad_ids [⟨1, 50⟩, ⟨2, 60⟩]) ∧
      ((∀ x : Int, x ∈ old_squad_ids [⟨1, 50⟩, ⟨2, 60⟩] ↔
          x ∈ new_squad_ids [⟨1, 2, 55⟩, ⟨3, 2, 65⟩]) →
        t.transfers = []) :=
  create_transfers_object_correct ⟨7, 8⟩ [⟨1, 50⟩, ⟨2, 60⟩]
    [⟨1, 2, 55⟩, ⟨3, 2, 65⟩] (by decide) (by decide) (by decide)

/-- C9: with at most as many incoming as outgoing players, the element_out
sequence of the plan is exactly the first |players_in| entries of players_out
in order, and players_out is a subsequence of old_squad (filtering preserves
order; the function never reorders it). -/
theorem create_transfers_object_element_out_order (c : Constants)
    (old_squad : List OldPlayer) (new_squad : List NewPlayer)
    (h : (players_in old_squad new_squad).length ≤
      (players_out old_squad new_squad).length) :
    ∃ t, create_transfers_object c old_squad new_squad = some t ∧
      t.transfers.map (fun tr => tr.element_out) =
        ((players_out old_squad new_squad).take
          (players_in old_squad new_squad).length).map (fun q => q.element) ∧
      (players_out old_squad new_squad).Sublist old_squad := by
  have hle : (sortPlayersIn (players_in old_squad new_squad)).length ≤
      (players_out old_squad new_squad).length := by
    rw [sortPlayersIn_length]
    exact h
  have hout : (List.zipWith mkTransfer
      (sortPlayersIn (players_in old_squad new_squad))
      (players_out old_squad new_squad)).map (fun tr => tr.element_out) =
      ((players_out old_squad new_squad).take
        (players_in old_squad new_squad).length).map (fun q => q.element) := by
    rw [zipWith_mkTransfer_map_element_out, sortPlayersIn_length]
  exact ⟨{ confirmed := "true", entry := c.SQUAD_ID, event := c.NEXT_EVENT,
           transfers := List.zipWith mkTransfer
             (sortPlayersIn (players_in old_squad new_squad))
             (players_out old_squad new_squad),
           wildcard := "false" },
    by simp [create_transfers_object, buildTransfers_eq_some hle],
    hout, List.filter_sublist _⟩

/-- C9 witness: one incoming player against two outgoing players; the single
element_out is the first outgoing entry of old_squad. -/
theorem create_transfers_object_element_out_order_witness :
    ∃ t, create_transfers_object ⟨7, 8⟩ [⟨1, 50⟩, ⟨2, 60⟩] [⟨3, 1, 10⟩] = some t ∧
      t.transfers.map (fun tr => tr.element_out) =
        ((players_out [⟨1, 50⟩, ⟨2, 60⟩] [⟨3, 1, 10⟩]).take
          (players_in [⟨1, 50⟩, ⟨2, 60⟩] [⟨3, 1, 10⟩]).length).map
          (fun q => q.element) ∧
      (players_out [⟨1, 50⟩, ⟨2, 60⟩] [⟨3, 1, 10⟩]).Sublist [⟨1, 50⟩, ⟨2, 60⟩] :=
  create_transfers_object_element_out_order ⟨7, 8⟩ [⟨1, 50⟩, ⟨2, 60⟩]
    [⟨3, 1, 10⟩] (by decide)

/-- C5: whenever the call succeeds, the i-th transfer is built purely by
positional index: ('id','now_cost') of the i-th element of the sorted
players_in and ('element','selling_price') of the i-th element of
players_out; and the spec's worked example evaluates exactly as stated. -/
theorem create_transfers_object_positional (c : Constants)
    (old_squad : List OldPlayer) (new_squad : List NewPlayer)
    (t : TransferObject)
    (h : create_transfers_object c old_squad new_squad = some t) :
    (∀ i, i < t.transfers.length →
      ∃ a b, (sortPlayersIn (players_in old_squad new_squad))[i]? = some a ∧
        (players_out old_squad new_squad)[i]? = some b ∧
        t.transfers[i]? = some
          { element_in := a.id, purchase_price := a.now_cost,
            element_out := b.element, selling_price := b.selling_price }) ∧
    (create_transfers_object c [⟨1, 50⟩, ⟨2, 60⟩] [⟨1, 2, 55⟩, ⟨3, 2, 65⟩]).map
      (fun u => u.transfers) = some [⟨3, 65, 2, 60⟩] := by
  constructor
  · simp only [create_transfers_object, Option.map_eq_some'] at h
    rcases h with ⟨ts, hts, rfl⟩
    have hsome : (buildTransfers (sortPlayersIn (players_in old_squad new_squad))
        (players_out old_squad new_squad)).isSome := by
      rw [hts]
      rfl
    have hle := (buildTransfers_isSome_iff _ _).1 hsome
    rw [buildTransfers_eq_some hle] at hts
    obtain rfl := Option.some_inj.1 hts
    intro i hi
    dsimp only at hi ⊢
    rw [List.length_zipWith] at hi
    have hi1 : i < (sortPlayersIn (players_in old_squad new_squad)).length :=
      lt_of_lt_of_le hi (Nat.min_le_left _ _)
    have hi2 : i < (players_out old_squad new_squad).length :=
      lt_of_lt_of_le hi (Nat.min_le_right _ _)
    refine ⟨(sortPlayersIn (players_in old_squad new_squad))[i],
      (players_out old_squad new_squad)[i],
      List.getElem?_eq_getElem hi1, List.getElem?_eq_getElem hi2, ?_⟩
    rw [List.getElem?_zipWith, List.getElem?_eq_getElem hi1,
      List.getElem?_eq_getElem hi2]
    rfl
  · have hb : buildTransfers
        (sortPlayersIn (players_in [⟨1, 50⟩, ⟨2, 60⟩] [⟨1, 2, 55⟩, ⟨3, 2, 65⟩]))
        (players_out [⟨1, 50⟩, ⟨2, 60⟩] [⟨1, 2, 55⟩, ⟨3, 2, 65⟩]) =
        some [⟨3, 65, 2, 60⟩] := by decide
    simp [create_transfers_object, hb]

/-- C5 witness: the worked-example conjunct of the theorem, applied at the
spec's concrete squads and resulting plan. -/
theorem create_transfers_object_positional_witness :
    (create_transfers_object ⟨7, 8⟩ [⟨1, 50⟩, ⟨2, 60⟩]
        [⟨1, 2, 55⟩, ⟨3, 2, 65⟩]).map (fun u => u.transfers) =
      some [⟨3, 65, 2, 60⟩] :=
  (create_transfers_object_positional ⟨7, 8⟩ [⟨1, 50⟩, ⟨2, 60⟩]
    [⟨1, 2, 55⟩, ⟨3, 2, 65⟩]
    { confirmed := "true", entry := 7, event := 8,
      transfers := [⟨3, 65, 2, 60⟩], wildcard := "false" }
    (by decide)).2

/-- C6: the plan's element_in order follows `sorted(players_in, key
element_type)`; that list is nondecreasing in element_type, and within each
category the players keep the relative order they had in new_squad (the sort
is stable). -/
theorem create_transfers_object_sorted_stable (c : Constants)
    (old_squad : List OldPlayer) (new_squad : List NewPlayer)
    (t : TransferObject)
    (h : create_transfers_object c old_squad new_squad = some t) :
    t.transfers.map (fun tr => tr.element_in) =
      (sortPlayersIn (players_in old_squad new_squad)).map (fun p => p.id) ∧
    (sortPlayersIn (players_in old_squad new_squad)).Pairwise
      (fun a b => a.element_type ≤ b.element_type) ∧
    (∀ k : Int, (sortPlayersIn (players_in old_squad new_squad)).filter (typeIs k) =
      new_squad.filter
        (fun p => decide (p.id ∉ old_squad_ids old_squad) && typeIs k p)) := by
  refine ⟨?_, sortPlayersIn_pairwise _, ?_⟩
  · simp only [create_transfers_object, Option.map_eq_some'] at h
    rcases h with ⟨ts, hts, rfl⟩
    have hsome : (buildTransfers (sortPlayersIn (players_in old_squad new_squad))
        (players_out old_squad new_squad)).isSome := by
      rw [hts]
      rfl
    have hle := (buildTransfers_isSome_iff _ _).1 hsome
    rw [buildTransfers_eq_some hle] at hts
    obtain rfl := Option.some_inj.1 hts
    dsimp only
    rw [zipWith_mkTransfer_map_element_in, List.take_of_length_le hle]
  · intro k
    rw [sortPlayersIn_filter]
    simp only [players_in, List.filter_filter]
    congr 1
    funext p
    exact Bool.and_comm _ _

/-- C6 witness: two incoming players with element types 2 and 1; the sorted
incoming list is nondecreasing in element_type. -/
theorem create_transfers_object_sorted_stable_witness :
    (sortPlayersIn (players_in [⟨1, 50⟩, ⟨2, 60⟩] [⟨5, 2, 10⟩, ⟨6, 1, 20⟩])).Pairwise
      (fun a b => a.element_type ≤ b.element_type) :=
  (create_transfers_object_sorted_stable ⟨7, 8⟩ [⟨1, 50⟩, ⟨2, 60⟩]
    [⟨5, 2, 10⟩, ⟨6, 1, 20⟩]
    ⟨"true", 7, 8, [⟨6, 20, 1, 50⟩, ⟨5, 10, 2, 60⟩], "false"⟩ (by decide)).2.1
